import Mathlib

/-!
Verification of the AUTO trading system's decision-and-risk engine.

Shallow embedding of `src/services/risk_manager.py`,
`src/services/strategy_engine.py` and `src/services/broker_adapter.py`.
Python `Decimal` values are modelled as `ℚ`, Python `int` as `ℤ` (counts
as `ℕ`), wall-clock instants as `ℕ` seconds with calendar days of 86400
seconds, and the database / broker effects as explicit environment
records passed to the pure functions.
-/

namespace Auto

/-- Row of the `trading_parameters` table (`models/trading.py`),
restricted to the fields used by the risk manager and strategy engine. -/
structure TradingParameters where
  is_active : Bool
  min_volume_shares : ℤ
  min_volume_ratio : ℚ
  min_money_flow : ℚ
  take_profit_pct : ℚ
  stop_loss_pct : ℚ
  per_order_value : ℚ
  max_total_position : ℚ
  max_daily_trades : ℤ
deriving DecidableEq, Repr

/-- In-memory state of `RiskManager`: the `emergency_stop` flag and the
`recent_signals` dict, keyed by `f"{stock_code}_{now.date()}"` (modelled as
the pair of the stock code and the calendar-day number) and storing the
time of the last accepted signal. -/
structure RMState where
  emergency_stop : Bool
  recent_signals : List ((String × ℕ) × ℕ)
deriving DecidableEq, Repr

/-- External observations made during one `pre_trade_risk_check` call:
the two separate `load_parameters()` database reads (one inside
`check_emergency_stop`, one at step 2 of the check), today's trade count
from the `TradeRecord` table, the `market_value` of the active position
for the checked stock (0 when there is none or it is null), and the
wall-clock time `datetime.now()` seen by `check_duplicate_signal`. -/
structure RiskEnv where
  load1 : Option TradingParameters
  load2 : Option TradingParameters
  today_trade_count : ℕ
  existing_market_value : ℚ
  now : ℕ
deriving DecidableEq, Repr

/-- `RiskManager.check_emergency_stop` (risk_manager.py:81-91): true when
the in-memory flag is set, or the parameters fail to load, or the loaded
parameters are inactive. -/
def check_emergency_stop (st : RMState) (load : Option TradingParameters) : Bool :=
  if st.emergency_stop then true
  else
    match load with
    | none => true
    | some params => if !params.is_active then true else false

/-- `RiskManager.check_daily_trade_limit` (risk_manager.py:93-112), with
today's trade count supplied by the environment. -/
def check_daily_trade_limit (today_count : ℕ) (max_daily_trades : ℤ) : Bool :=
  if (today_count : ℤ) ≥ max_daily_trades then false else true

/-- `RiskManager.check_position_limit` (risk_manager.py:114-128). -/
def check_position_limit (current_total_value new_order_value max_total_position : ℚ) : Bool :=
  if current_total_value + new_order_value > max_total_position then false else true

/-- `RiskManager.check_single_stock_exposure` (risk_manager.py:130-154),
with the current position's market value supplied by the environment. -/
def check_single_stock_exposure (existing_market_value new_order_value
    total_asset_value max_exposure_pct : ℚ) : Bool :=
  let projected_value := existing_market_value + new_order_value
  let exposure_pct := if total_asset_value > 0 then projected_value / total_asset_value * 100 else 0
  if exposure_pct > max_exposure_pct then false else true

/-- Calendar day of a wall-clock instant (`now.date()`). -/
def dayOf (t : ℕ) : ℕ := t / 86400

/-- Lookup in the `recent_signals` dict (first binding wins, as the dict
is updated by prepending a fresh binding). -/
def sigLookup (key : String × ℕ) : List ((String × ℕ) × ℕ) → Option ℕ
  | [] => none
  | (k, v) :: rest => if k = key then some v else sigLookup key rest

/-- `RiskManager.check_duplicate_signal` (risk_manager.py:156-169):
deny (leaving the dict unchanged) when a signal for the same stock and
calendar day was recorded less than `cooldown_minutes * 60` seconds ago;
otherwise record `now` under the stock+day key and accept. -/
def check_duplicate_signal (rs : List ((String × ℕ) × ℕ)) (stock_code : String)
    (now : ℕ) (cooldown_minutes : ℕ) : Bool × List ((String × ℕ) × ℕ) :=
  let key := (stock_code, dayOf now)
  match sigLookup key rs with
  | some last_signal_time =>
      if now - last_signal_time < cooldown_minutes * 60 then (false, rs)
      else (true, (key, now) :: rs)
  | none => (true, (key, now) :: rs)

/-- `RiskManager.pre_trade_risk_check` (risk_manager.py:193-230): the six
checks in source order, short-circuiting with the source's reason
strings; the market-hours check is commented out in the source and hence
absent here. Returns the (allow, reason) pair and the updated manager
state (only the duplicate-signal dict is ever updated, and only on a
full pass). -/
def pre_trade_risk_check (st : RMState) (env : RiskEnv) (stock_code : String)
    (order_value current_positions_value total_asset_value : ℚ) :
    (Bool × String) × RMState :=
  if check_emergency_stop st env.load1 then ((false, "系統處於緊急停止狀態"), st)
  else
    match env.load2 with
    | none => ((false, "無法載入交易參數"), st)
    | some params =>
      if !check_daily_trade_limit env.today_trade_count params.max_daily_trades then
        ((false, "已達到單日交易次數限制"), st)
      else if !check_position_limit current_positions_value order_value
          params.max_total_position then
        ((false, "總倉位限制超限"), st)
      else if !check_single_stock_exposure env.existing_market_value order_value
          total_asset_value 20 then
        ((false, "單一股票持倉比例超限"), st)
      else
        let dup := check_duplicate_signal st.recent_signals stock_code env.now 60
        if !dup.1 then ((false, "重複信號，已過濾"), st)
        else ((true, "風險檢查通過"), { st with recent_signals := dup.2 })

/-- `RiskManager.check_stop_loss_take_profit` (risk_manager.py:232-249),
projected onto the (should_sell, reason-code) pair; `position.avg_cost`
is `Option ℚ` since a null or zero cost is falsy in Python and returns
early. -/
def check_stop_loss_take_profit (avg_cost : Option ℚ)
    (current_price take_profit_pct stop_loss_pct : ℚ) : Bool × String :=
  match avg_cost with
  | none => (false, "")
  | some c =>
    if c = 0 then (false, "")
    else
      let price_change_pct := (current_price - c) / c * 100
      if price_change_pct ≥ take_profit_pct then (true, "TAKE_PROFIT")
      else if price_change_pct ≤ stop_loss_pct then (true, "STOP_LOSS")
      else (false, "")

/-- Python `int()` applied to a `Decimal` ratio: truncation toward zero. -/
def pyInt (q : ℚ) : ℤ := if q < 0 then -⌊-q⌋ else ⌊q⌋

/-- `RiskManager.calculate_order_quantity` (risk_manager.py:251-261):
`lots = int(order_value / (stock_price * 1000))`, returning
`lots * 1000` shares, and 0 when the price is not positive. -/
def calculate_order_quantity (order_value stock_price : ℚ) : ℤ :=
  if stock_price ≤ 0 then 0
  else pyInt (order_value / (stock_price * 1000)) * 1000

/-- A value appearing in the candidate parameter dict: a Python `int`,
a Python `float`/`Decimal` (both satisfy the numeric `isinstance`
checks), or some other object (string, list, ...). -/
inductive PyVal where
  | vint (n : ℤ)
  | vdec (q : ℚ)
  | vother
deriving DecidableEq, Repr

/-- `isinstance(v, (int, float, Decimal))`. -/
def PyVal.isNumber : PyVal → Bool
  | .vint _ => true
  | .vdec _ => true
  | .vother => false

/-- `isinstance(v, int)`. -/
def PyVal.isInt : PyVal → Bool
  | .vint _ => true
  | _ => false

/-- Numeric value for comparison (unused on `vother`, where the
`isinstance` disjunct short-circuits the comparison). -/
def PyVal.toQ : PyVal → ℚ
  | .vint n => n
  | .vdec q => q
  | .vother => 0

/-- The candidate dict passed to `validate_parameters`: each checked key
is present (`some v`) or absent (`none`). -/
structure ParamsDict where
  take_profit_pct : Option PyVal
  stop_loss_pct : Option PyVal
  min_volume_shares : Option PyVal
  min_volume_ratio : Option PyVal
  per_order_value : Option PyVal
  max_total_position : Option PyVal
  max_daily_trades : Option PyVal
deriving DecidableEq, Repr

/-- `RiskManager.validate_parameters` (risk_manager.py:31-79): each
present field is checked against its range, appending one error message
per violation (the per-order-value field uses `elif`, so it contributes
at most one message); returns `(len(errors) == 0, errors)`. -/
def validate_parameters (p : ParamsDict) : Bool × List String :=
  let errors : List String := []
  let errors := match p.take_profit_pct with
    | some v =>
      if !v.isNumber ∨ v.toQ ≤ 0 ∨ v.toQ > 100 then errors ++ ["停利百分比必須在0-100之間"]
      else errors
    | none => errors
  let errors := match p.stop_loss_pct with
    | some v =>
      if !v.isNumber ∨ v.toQ ≥ 0 ∨ v.toQ < -50 then errors ++ ["停損百分比必須在-50-0之間"]
      else errors
    | none => errors
  let errors := match p.min_volume_shares with
    | some v =>
      if !v.isInt ∨ v.toQ ≤ 0 then errors ++ ["最低成交張數必須為正整數"] else errors
    | none => errors
  let errors := match p.min_volume_ratio with
    | some v =>
      if !v.isNumber ∨ v.toQ ≤ 0 then errors ++ ["最低量比必須大於0"] else errors
    | none => errors
  let errors := match p.per_order_value with
    | some v =>
      if !v.isNumber ∨ v.toQ ≤ 0 then errors ++ ["單筆下單金額必須大於0"]
      else if v.toQ > 10000000 then errors ++ ["單筆下單金額不得超過1000萬"]
      else errors
    | none => errors
  let errors := match p.max_total_position with
    | some v =>
      if !v.isNumber ∨ v.toQ ≤ 0 then errors ++ ["最大總倉位必須大於0"] else errors
    | none => errors
  let errors := match p.max_daily_trades with
    | some v =>
      if !v.isInt ∨ v.toQ ≤ 0 ∨ v.toQ > 1000 then errors ++ ["單日最大交易次數必須在1-1000之間"]
      else errors
    | none => errors
  (errors.length = 0, errors)

/-- The error message the take-profit field contributes, if any. -/
def tpErr (p : ParamsDict) : Option String :=
  match p.take_profit_pct with
  | some v => if !v.isNumber ∨ v.toQ ≤ 0 ∨ v.toQ > 100 then some "停利百分比必須在0-100之間" else none
  | none => none

/-- The error message the stop-loss field contributes, if any. -/
def slErr (p : ParamsDict) : Option String :=
  match p.stop_loss_pct with
  | some v => if !v.isNumber ∨ v.toQ ≥ 0 ∨ v.toQ < -50 then some "停損百分比必須在-50-0之間" else none
  | none => none

/-- The error message the min-volume-shares field contributes, if any. -/
def vsErr (p : ParamsDict) : Option String :=
  match p.min_volume_shares with
  | some v => if !v.isInt ∨ v.toQ ≤ 0 then some "最低成交張數必須為正整數" else none
  | none => none

/-- The error message the min-volume-ratio field contributes, if any. -/
def vrErr (p : ParamsDict) : Option String :=
  match p.min_volume_ratio with
  | some v => if !v.isNumber ∨ v.toQ ≤ 0 then some "最低量比必須大於0" else none
  | none => none

/-- The error message the per-order-value field contributes, if any. -/
def povErr (p : ParamsDict) : Option String :=
  match p.per_order_value with
  | some v =>
    if !v.isNumber ∨ v.toQ ≤ 0 then some "單筆下單金額必須大於0"
    else if v.toQ > 10000000 then some "單筆下單金額不得超過1000萬"
    else none
  | none => none

/-- The error message the max-total-position field contributes, if any. -/
def mtpErr (p : ParamsDict) : Option String :=
  match p.max_total_position with
  | some v => if !v.isNumber ∨ v.toQ ≤ 0 then some "最大總倉位必須大於0" else none
  | none => none

/-- The error message the max-daily-trades field contributes, if any. -/
def mdtErr (p : ParamsDict) : Option String :=
  match p.max_daily_trades with
  | some v => if !v.isInt ∨ v.toQ ≤ 0 ∨ v.toQ > 1000 then some "單日最大交易次數必須在1-1000之間" else none
  | none => none

/-- A processed signal's metric fields, as read by
`StrategyEngine._check_signal_criteria` via `signal.get(..., 0)`. -/
structure Signal where
  volume_shares : ℚ
  volume_ratio : ℚ
  money_flow : ℚ
deriving DecidableEq, Repr

/-- `StrategyEngine._check_signal_criteria` (strategy_engine.py:148-173). -/
def check_signal_criteria (s : Signal) (params : TradingParameters) : Bool :=
  if s.volume_shares < (params.min_volume_shares : ℚ) then false
  else if s.volume_ratio < params.min_volume_ratio then false
  else if s.money_flow < params.min_money_flow then false
  else true

/-- The decision dict built by `_evaluate_single_buy_signal`
(strategy_engine.py:132-142), restricted to its order-relevant fields. -/
structure BuyDecision where
  stock_code : String
  action : String
  quantity : ℤ
  order_type : String
  current_price : ℚ
  order_value : ℚ
deriving DecidableEq, Repr

/-- `StrategyEngine._evaluate_single_buy_signal`
(strategy_engine.py:88-146): skip if the stock is already held, if the
signal fails the criteria, if the price fetch errored, if the risk check
denied, or if the sized quantity is ≤ 0; otherwise emit a MARKET buy
decision. `held` abstracts the scan of `current_positions`, `price_info`
the broker quote (`none` = error), `risk_passed` the
`pre_trade_risk_check` verdict. -/
def evaluate_single_buy_signal (stock_code : String) (s : Signal)
    (params : TradingParameters) (held : Bool) (price_info : Option ℚ)
    (risk_passed : Bool) : Option BuyDecision :=
  if held then none
  else if !check_signal_criteria s params then none
  else
    match price_info with
    | none => none
    | some current_price =>
      if !risk_passed then none
      else
        let quantity := calculate_order_quantity params.per_order_value current_price
        if quantity ≤ 0 then none
        else some ⟨stock_code, "BUY", quantity, "MARKET", current_price, params.per_order_value⟩

/-- Row of the `positions` table (`models/trading.py`), restricted to
the fields the strategy engine reads and writes. -/
structure Position where
  id : ℕ
  stock_code : String
  quantity : ℤ
  avg_cost : ℚ
  is_active : Bool
deriving DecidableEq, Repr

/-- Row of the `trade_records` table as written by
`StrategyEngine._record_trade` (strategy_engine.py:290-329). -/
structure TradeRecord where
  stock_code : String
  trade_type : String
  quantity : ℤ
  price : ℚ
  total_amount : ℚ
  fee : ℚ
  tax : ℚ
  net_amount : ℚ
  order_id : Option String
  status : String
deriving DecidableEq, Repr

/-- The dict returned by `BrokerAdapter.place_order` as consumed by the
strategy engine: `success`, `execution_price` (`order_result.get(...,0)`)
and the order id. -/
structure OrderResult where
  success : Bool
  execution_price : ℚ
  order_id : Option String
deriving DecidableEq, Repr

/-- `StrategyEngine._record_trade` (strategy_engine.py:290-329): fee is
0.1425% of the gross amount, tax 0.3% on sells only, net amount is the
signed cash flow (negative on buys). -/
def record_trade (decision : BuyDecision) (order_result : OrderResult)
    (trade_type : String) (trades : List TradeRecord) : List TradeRecord :=
  let execution_price := order_result.execution_price
  let quantity := decision.quantity
  let total_amount := execution_price * quantity
  let fee := total_amount * (1425 / 1000000)
  let tax := if trade_type = "SELL" then total_amount * (3 / 1000) else 0
  let net_amount := if trade_type = "SELL" then total_amount - fee - tax
                    else -(total_amount + fee)
  trades ++ [⟨decision.stock_code, trade_type, quantity, execution_price,
              total_amount, fee, tax, net_amount, order_result.order_id, "COMPLETED"⟩]

/-- `Position.query.filter_by(stock_code=..., is_active=True).first()`. -/
def findActive (stock_code : String) : List Position → Option Position
  | [] => none
  | p :: rest =>
      if p.stock_code = stock_code ∧ p.is_active then some p
      else findActive stock_code rest

/-- `StrategyEngine._update_position_after_buy` (strategy_engine.py:331-365)
on the position looked up by stock code: update quantity and weighted
average cost when an active position exists, otherwise create one whose
average cost is the execution price. -/
def update_position_after_buy (existing : Option Position) (stock_code : String)
    (quantity : ℤ) (price : ℚ) (next_id : ℕ) : Position :=
  match existing with
  | some position =>
    let old_quantity := position.quantity
    let old_cost := position.avg_cost
    let new_quantity := old_quantity + quantity
    let new_avg_cost := (old_cost * old_quantity + price * quantity) / new_quantity
    { position with quantity := new_quantity, avg_cost := new_avg_cost }
  | none => ⟨next_id, stock_code, quantity, price, true⟩

/-- The buy-path ledger write over the whole positions table: the first
active row for the stock is replaced by its updated form, or a fresh row
is appended. -/
def applyBuyList (stock_code : String) (quantity : ℤ) (price : ℚ) (next_id : ℕ) :
    List Position → List Position
  | [] => [⟨next_id, stock_code, quantity, price, true⟩]
  | p :: rest =>
      if p.stock_code = stock_code ∧ p.is_active then
        update_position_after_buy (some p) stock_code quantity price next_id :: rest
      else p :: applyBuyList stock_code quantity price next_id rest

/-- The persistent state `execute_buy_decision` may write: the trade log
and the positions table. -/
structure LedgerState where
  trades : List TradeRecord
  positions : List Position
deriving DecidableEq, Repr

/-- `StrategyEngine.execute_buy_decision` (strategy_engine.py:175-206):
on `order_result['success']` record the trade and update the position;
otherwise log and return `False` with the ledger untouched. -/
def execute_buy_decision (decision : BuyDecision) (order_result : OrderResult)
    (next_id : ℕ) (st : LedgerState) : Bool × LedgerState :=
  if order_result.success then
    let trades := record_trade decision order_result "BUY" st.trades
    let positions := applyBuyList decision.stock_code decision.quantity
        order_result.execution_price next_id st.positions
    (true, ⟨trades, positions⟩)
  else (false, st)

/-- `StrategyEngine._update_position_after_sell`
(strategy_engine.py:367-379): when `decision.get('position_id')` is
truthy (non-`None`, non-zero) the row with that id has `is_active` set
to `False`; nothing else changes — in particular the quantity and
average cost are left as they were. -/
def update_position_after_sell (position_id : Option ℕ)
    (positions : List Position) : List Position :=
  match position_id with
  | none => positions
  | some pid =>
    if pid = 0 then positions
    else positions.map fun p => if p.id = pid then { p with is_active := false } else p

/-- Python `str.upper()` restricted to the ASCII order-type strings the
engine uses. -/
def pyUpper (s : String) : String := ⟨s.data.map Char.toUpper⟩

/-- A holding in `MockBrokerAdapter.mock_positions`. -/
structure MockPosition where
  quantity : ℤ
  avg_cost : ℚ
deriving DecidableEq, Repr

/-- An entry of `MockBrokerAdapter.mock_orders`. -/
structure MockOrder where
  order_id : String
  stock_code : String
  order_type : String
  quantity : ℤ
  price : ℚ
  total_amount : ℚ
  status : String
deriving DecidableEq, Repr

/-- The dict returned by `MockBrokerAdapter.place_order`. -/
structure PlaceOrderResult where
  success : Bool
  error : Option String
  order_id : Option String
  status : Option String
  execution_price : Option ℚ
  total_amount : Option ℚ
deriving DecidableEq, Repr

/-- Mutable state of `MockBrokerAdapter` (broker_adapter.py:76-93). -/
structure MockState where
  mock_balance : ℚ
  mock_positions : List (String × MockPosition)
  mock_orders : List MockOrder
  order_counter : ℕ
  mock_prices : List (String × ℚ)
deriving DecidableEq, Repr

/-- Dict lookup on an association list (first binding wins). -/
def alistLookup {α : Type} (key : String) : List (String × α) → Option α
  | [] => none
  | (k, v) :: rest => if k = key then some v else alistLookup key rest

/-- Dict update `d[key] = v` (prepend; lookups take the first binding). -/
def alistInsert {α : Type} (key : String) (v : α) (l : List (String × α)) :
    List (String × α) := (key, v) :: l

/-- Dict deletion `del d[key]`. -/
def alistErase {α : Type} (key : String) : List (String × α) → List (String × α)
  | [] => []
  | (k, v) :: rest => if k = key then alistErase key rest else (k, v) :: alistErase key rest

/-- `f"MOCK_ORDER_{counter:06d}"`: the counter zero-padded to six digits. -/
def mockOrderId (counter : ℕ) : String :=
  let s := toString counter
  "MOCK_ORDER_" ++ ⟨List.replicate (6 - s.length) '0'⟩ ++ s

/-- `MockBrokerAdapter.place_order` (broker_adapter.py:146-231).
The order counter is bumped before any branch; `MARKET` executes at the
current mock price; the buy branch fires only for `BUY`/`MARKET_BUY`
(insufficient funds fails early), the sell branch only for
`SELL`/`MARKET_SELL` (insufficient holdings fails early); every
non-failing path records a FILLED order and returns success. -/
def mock_place_order (st : MockState) (stock_code order_type : String)
    (quantity : ℤ) (price : Option ℚ) : PlaceOrderResult × MockState :=
  let order_id := mockOrderId st.order_counter
  let st := { st with order_counter := st.order_counter + 1 }
  let current_price := (alistLookup stock_code st.mock_prices).getD 100
  let u := pyUpper order_type
  let execution_price := if u = "MARKET" then current_price else price.getD current_price
  let total_amount := execution_price * quantity
  if u = "BUY" ∨ u = "MARKET_BUY" then
    if total_amount > st.mock_balance then
      (⟨false, some "資金不足", none, none, none, none⟩, st)
    else
      let st := { st with mock_balance := st.mock_balance - total_amount }
      let st :=
        match alistLookup stock_code st.mock_positions with
        | some pos =>
          let new_quantity := pos.quantity + quantity
          let new_avg_cost := (pos.avg_cost * pos.quantity + execution_price * quantity) /
              new_quantity
          { st with mock_positions :=
              alistInsert stock_code ⟨new_quantity, new_avg_cost⟩ st.mock_positions }
        | none =>
          { st with mock_positions :=
              alistInsert stock_code ⟨quantity, execution_price⟩ st.mock_positions }
      let st := { st with mock_orders := st.mock_orders ++
          [⟨order_id, stock_code, order_type, quantity, execution_price, total_amount, "FILLED"⟩] }
      (⟨true, none, some order_id, some "FILLED", some execution_price, some total_amount⟩, st)
  else if u = "SELL" ∨ u = "MARKET_SELL" then
    match alistLookup stock_code st.mock_positions with
    | none => (⟨false, some "持倉不足", none, none, none, none⟩, st)
    | some pos =>
      if pos.quantity < quantity then
        (⟨false, some "持倉不足", none, none, none, none⟩, st)
      else
        let st := { st with mock_balance := st.mock_balance + total_amount }
        let remaining := pos.quantity - quantity
        let st :=
          if remaining = 0 then
            { st with mock_positions := alistErase stock_code st.mock_positions }
          else
            { st with mock_positions :=
                alistInsert stock_code ⟨remaining, pos.avg_cost⟩ st.mock_positions }
        let st := { st with mock_orders := st.mock_orders ++
            [⟨order_id, stock_code, order_type, quantity, execution_price, total_amount, "FILLED"⟩] }
        (⟨true, none, some order_id, some "FILLED", some execution_price, some total_amount⟩, st)
  else
    let st := { st with mock_orders := st.mock_orders ++
        [⟨order_id, stock_code, order_type, quantity, execution_price, total_amount, "FILLED"⟩] }
    (⟨true, none, some order_id, some "FILLED", some execution_price, some total_amount⟩, st)

/-! ## Helper lemmas -/

/-- Any quantity produced by `calculate_order_quantity` is a whole
number of 1000-share lots. -/
lemma calculate_order_quantity_emod (order_value stock_price : ℚ) :
    calculate_order_quantity order_value stock_price % 1000 = 0 := by
  unfold calculate_order_quantity
  split
  · rfl
  · exact Int.mul_emod_left _ _

/-- Inversion for `_evaluate_single_buy_signal`: an emitted decision is
the MARKET buy sized by `calculate_order_quantity` at the fetched price,
and that size passed the positivity guard. -/
lemma evaluate_single_buy_signal_some {stock_code : String} {s : Signal}
    {params : TradingParameters} {held : Bool} {price_info : Option ℚ}
    {risk_passed : Bool} {d : BuyDecision}
    (h : evaluate_single_buy_signal stock_code s params held price_info risk_passed = some d) :
    ∃ cp, price_info = some cp
      ∧ d = ⟨stock_code, "BUY", calculate_order_quantity params.per_order_value cp,
             "MARKET", cp, params.per_order_value⟩
      ∧ 0 < calculate_order_quantity params.per_order_value cp := by
  cases hpi : price_info with
  | none => simp [evaluate_single_buy_signal, hpi] at h
  | some cp =>
    by_cases hh : held
    · simp [evaluate_single_buy_signal, hh] at h
    · by_cases hcrit : check_signal_criteria s params
      · by_cases hrp : risk_passed
        · by_cases hq : calculate_order_quantity params.per_order_value cp ≤ 0
          · simp [evaluate_single_buy_signal, hh, hcrit, hrp, hpi, hq] at h
          · refine ⟨cp, rfl, ?_, by omega⟩
            simp [evaluate_single_buy_signal, hh, hcrit, hrp, hpi, hq] at h
            exact h.symm
        · simp [evaluate_single_buy_signal, hh, hcrit, hrp, hpi] at h
      · simp [evaluate_single_buy_signal, hh, hcrit, hpi] at h

/-! ## Claims -/

/-- C1: whenever the in-memory `emergency_stop` flag is set or the
loaded `TradingParameters` row is inactive, `pre_trade_risk_check`
denies with the system-halted reason (the source's
"系統處於緊急停止狀態"), irrespective of the order value, positions
value, asset value, trade count, position values or cooldown state, and
leaves the manager state unchanged — the emergency check runs before
every other rule. -/
theorem pre_trade_check_emergency_stop_halts (st : RMState) (env : RiskEnv)
    (stock_code : String) (order_value current_positions_value total_asset_value : ℚ)
    (h : st.emergency_stop = true ∨ ∃ p, env.load1 = some p ∧ p.is_active = false) :
    pre_trade_risk_check st env stock_code order_value current_positions_value
      total_asset_value = ((false, "系統處於緊急停止狀態"), st) := by
  have hstop : check_emergency_stop st env.load1 = true := by
    rcases h with h | ⟨p, hp, hact⟩
    · simp [check_emergency_stop, h]
    · cases hse : st.emergency_stop <;> simp [check_emergency_stop, hse, hp, hact]
  simp [pre_trade_risk_check, hstop]

/-- Witness for C1: an engaged emergency stop denies a concrete request. -/
theorem pre_trade_check_emergency_stop_halts_witness :
    pre_trade_risk_check ⟨true, []⟩ ⟨none, none, 0, 0, 0⟩ "2330.TW" 100000 0 1000000
      = ((false, "系統處於緊急停止狀態"), ⟨true, []⟩) :=
  pre_trade_check_emergency_stop_halts ⟨true, []⟩ ⟨none, none, 0, 0, 0⟩
    "2330.TW" 100000 0 1000000 (Or.inl rfl)

/-- C8: when the flag is down and the first parameter load yields an
active row (so the emergency check passes) but the step-2 load fails,
`pre_trade_risk_check` denies with the distinct parameters-unavailable
reason (the source's "無法載入交易參數"). -/
theorem pre_trade_check_parameters_unavailable (st : RMState) (env : RiskEnv)
    (stock_code : String) (order_value current_positions_value total_asset_value : ℚ)
    (p : TradingParameters) (hflag : st.emergency_stop = false)
    (hload1 : env.load1 = some p) (hact : p.is_active = true)
    (hload2 : env.load2 = none) :
    pre_trade_risk_check st env stock_code order_value current_positions_value
      total_asset_value = ((false, "無法載入交易參數"), st)
    ∧ "無法載入交易參數" ≠ "系統處於緊急停止狀態" := by
  constructor
  · simp [pre_trade_risk_check, check_emergency_stop, hflag, hload1, hact, hload2]
  · decide

/-- Witness for C8: a concrete request denied with the step-2 reason. -/
theorem pre_trade_check_parameters_unavailable_witness :
    pre_trade_risk_check ⟨false, []⟩
        ⟨some ⟨true, 1000, 1, 0, 10, -5, 100000, 1000000, 10⟩, none, 0, 0, 0⟩
        "2330.TW" 100000 0 1000000
      = ((false, "無法載入交易參數"), ⟨false, []⟩)
    ∧ "無法載入交易參數" ≠ "系統處於緊急停止狀態" :=
  pre_trade_check_parameters_unavailable ⟨false, []⟩
    ⟨some ⟨true, 1000, 1, 0, 10, -5, 100000, 1000000, 10⟩, none, 0, 0, 0⟩
    "2330.TW" 100000 0 1000000 ⟨true, 1000, 1, 0, 10, -5, 100000, 1000000, 10⟩
    rfl rfl rfl rfl

/-- C2: for a position with positive average cost the exit check fires
TAKE_PROFIT exactly when the percentage gain reaches the take-profit
threshold, STOP_LOSS exactly when it does not and the loss reaches the
stop-loss threshold (take-profit is tested first), and no sell
otherwise. -/
theorem check_exit_take_profit_before_stop_loss (c current_price take_profit_pct
    stop_loss_pct : ℚ) (hc : 0 < c) :
    (check_stop_loss_take_profit (some c) current_price take_profit_pct stop_loss_pct
        = (true, "TAKE_PROFIT")
      ↔ (current_price - c) / c * 100 ≥ take_profit_pct)
    ∧ (check_stop_loss_take_profit (some c) current_price take_profit_pct stop_loss_pct
        = (true, "STOP_LOSS")
      ↔ ¬ (current_price - c) / c * 100 ≥ take_profit_pct
        ∧ (current_price - c) / c * 100 ≤ stop_loss_pct)
    ∧ (check_stop_loss_take_profit (some c) current_price take_profit_pct stop_loss_pct
        = (false, "")
      ↔ ¬ (current_price - c) / c * 100 ≥ take_profit_pct
        ∧ ¬ (current_price - c) / c * 100 ≤ stop_loss_pct) := by
  have hs1 : ("TAKE_PROFIT" : String) ≠ "STOP_LOSS" := by decide
  have hs2 : ("TAKE_PROFIT" : String) ≠ "" := by decide
  have hs3 : ("STOP_LOSS" : String) ≠ "" := by decide
  by_cases h1 : (current_price - c) / c * 100 ≥ take_profit_pct
  · simp [check_stop_loss_take_profit, hc.ne', h1, hs1, hs2]
  · by_cases h2 : (current_price - c) / c * 100 ≤ stop_loss_pct
    · simp [check_stop_loss_take_profit, hc.ne', h1, h2, hs1, hs3]
    · simp [check_stop_loss_take_profit, hc.ne', h1, h2, hs2.symm, hs3.symm]

/-- Witness for C2: the spec's worked example with `avgCost=100`,
`takeProfitPct=10`, `stopLossPct=-5` at prices 112, 94 and 103. -/
theorem check_exit_take_profit_before_stop_loss_witness :
    check_stop_loss_take_profit (some 100) 112 10 (-5) = (true, "TAKE_PROFIT")
    ∧ check_stop_loss_take_profit (some 100) 94 10 (-5) = (true, "STOP_LOSS")
    ∧ check_stop_loss_take_profit (some 100) 103 10 (-5) = (false, "") :=
  ⟨((check_exit_take_profit_before_stop_loss 100 112 10 (-5) (by norm_num)).1).mpr
      (by norm_num),
   ((check_exit_take_profit_before_stop_loss 100 94 10 (-5) (by norm_num)).2.1).mpr
      ⟨by norm_num, by norm_num⟩,
   ((check_exit_take_profit_before_stop_loss 100 103 10 (-5) (by norm_num)).2.2).mpr
      ⟨by norm_num, by norm_num⟩⟩

/-- C4: a buy against no active position creates one whose average cost
is the execution price; against an existing position it adds the
quantity and takes the weighted average cost; in particular
`(qty=1000, avgCost=100)` plus a buy of `(qty=500, price=130)` gives
`(qty=1500, avgCost=110)`. -/
theorem update_position_after_buy_weighted_average (p : Position) (stock_code : String)
    (quantity : ℤ) (price : ℚ) (next_id : ℕ) :
    update_position_after_buy none stock_code quantity price next_id
      = ⟨next_id, stock_code, quantity, price, true⟩
    ∧ (update_position_after_buy (some p) stock_code quantity price next_id).quantity
      = p.quantity + quantity
    ∧ (update_position_after_buy (some p) stock_code quantity price next_id).avg_cost
      = (p.avg_cost * p.quantity + price * quantity) / (p.quantity + quantity)
    ∧ update_position_after_buy (some ⟨1, "2330.TW", 1000, 100, true⟩) "2330.TW" 500 130 9
      = ⟨1, "2330.TW", 1500, 110, true⟩ :=
  ⟨rfl, rfl, by simp only [update_position_after_buy]; push_cast; ring_nf,
   by norm_num [update_position_after_buy]⟩

/-- C5: when the broker reports failure, `execute_buy_decision` returns
`False` and the ledger — the trade log and the positions table — is
exactly as before; recording and the position update happen only on the
success branch. -/
theorem execute_buy_decision_failure_frame (decision : BuyDecision)
    (order_result : OrderResult) (next_id : ℕ) (st : LedgerState)
    (h : order_result.success = false) :
    execute_buy_decision decision order_result next_id st = (false, st)
    ∧ (execute_buy_decision decision order_result next_id st).2.trades = st.trades
    ∧ (execute_buy_decision decision order_result next_id st).2.positions = st.positions := by
  refine ⟨by simp [execute_buy_decision, h], ?_, ?_⟩ <;> simp [execute_buy_decision, h]

/-- Witness for C5: a concrete insufficient-funds rejection leaves a
concrete ledger untouched. -/
theorem execute_buy_decision_failure_frame_witness :
    execute_buy_decision ⟨"2330.TW", "BUY", 5000, "MARKET", 100, 500000⟩
        ⟨false, 0, none⟩ 3 ⟨[], [⟨1, "2317.TW", 1000, 95, true⟩]⟩
      = (false, ⟨[], [⟨1, "2317.TW", 1000, 95, true⟩]⟩) :=
  (execute_buy_decision_failure_frame ⟨"2330.TW", "BUY", 5000, "MARKET", 100, 500000⟩
    ⟨false, 0, none⟩ 3 ⟨[], [⟨1, "2317.TW", 1000, 95, true⟩]⟩ rfl).1

/-- C3 (counterexample): at `order_value = -1500`, `price = 1` the code
returns `int(-1.5) * 1000 = -1000` — Python `int()` truncates toward
zero — while the claim's `floor` formula gives `-2000` and the claim's
"returns 0 when the order value cannot buy one lot" gives `0`; the
claim fails as stated over every order value. -/
theorem calculate_order_quantity_floor_counterexample :
    calculate_order_quantity (-1500) 1 = -1000
    ∧ ⌊((-1500 : ℚ)) / (1 * 1000)⌋ * 1000 = -2000
    ∧ calculate_order_quantity (-1500) 1 ≠ ⌊((-1500 : ℚ)) / (1 * 1000)⌋ * 1000
    ∧ calculate_order_quantity (-1500) 1 ≠ 0 := by
  refine ⟨by norm_num [calculate_order_quantity, pyInt], by norm_num, ?_, ?_⟩ <;>
    norm_num [calculate_order_quantity, pyInt]

/-- C3 (amended): for every NONNEGATIVE order value,
`calculate_order_quantity` is `floor(orderValue / (price × 1000)) × 1000`
(0 when `price ≤ 0`), hence 0 whenever the order value cannot buy one
lot; and every decision `_evaluate_single_buy_signal` emits has a
positive quantity that is a multiple of 1000. -/
theorem calculate_order_quantity_sizing_amended (order_value stock_price : ℚ)
    (hov : 0 ≤ order_value) (stock_code : String) (s : Signal)
    (params : TradingParameters) (held : Bool) (price_info : Option ℚ)
    (risk_passed : Bool) (d : BuyDecision) :
    (calculate_order_quantity order_value stock_price
      = if stock_price ≤ 0 then 0 else ⌊order_value / (stock_price * 1000)⌋ * 1000)
    ∧ (stock_price ≤ 0 ∨ order_value < stock_price * 1000 →
        calculate_order_quantity order_value stock_price = 0)
    ∧ (evaluate_single_buy_signal stock_code s params held price_info risk_passed = some d →
        0 < d.quantity ∧ d.quantity % 1000 = 0) := by
  refine ⟨?_, ?_, ?_⟩
  · by_cases hp : stock_price ≤ 0
    · simp [calculate_order_quantity, hp]
    · have hq : 0 ≤ order_value / (stock_price * 1000) :=
        div_nonneg hov (by nlinarith [not_le.mp hp])
      simp [calculate_order_quantity, hp, pyInt, not_lt.mpr hq]
  · rintro (hp | hov')
    · simp [calculate_order_quantity, hp]
    · by_cases hp : stock_price ≤ 0
      · simp [calculate_order_quantity, hp]
      · have h1000 : (0 : ℚ) < stock_price * 1000 := by nlinarith [not_le.mp hp]
        have hge : 0 ≤ order_value / (stock_price * 1000) := div_nonneg hov h1000.le
        have hlt : order_value / (stock_price * 1000) < 1 := (div_lt_one h1000).mpr hov'
        have hfl : ⌊order_value / (stock_price * 1000)⌋ = 0 :=
          Int.floor_eq_zero_iff.mpr ⟨hge, hlt⟩
        simp [calculate_order_quantity, hp, pyInt, not_lt.mpr hge, hfl]
  · intro h
    obtain ⟨cp, -, hd, hpos⟩ := evaluate_single_buy_signal_some h
    subst hd
    exact ⟨hpos, calculate_order_quantity_emod _ _⟩

/-- Witness for C3 (amended): sizing NT$500,000 at price 100 yields 5
lots = 5000 shares, and the concrete emitted decision carries that
positive, lot-aligned quantity. -/
theorem calculate_order_quantity_sizing_amended_witness :
    calculate_order_quantity 500000 100 = ⌊(500000 : ℚ) / (100 * 1000)⌋ * 1000
    ∧ (0 : ℤ) <
      (BuyDecision.quantity ⟨"2330.TW", "BUY", 5000, "MARKET", 100, 500000⟩)
    ∧ (BuyDecision.quantity ⟨"2330.TW", "BUY", 5000, "MARKET", 100, 500000⟩) % 1000 = 0 := by
  have h := calculate_order_quantity_sizing_amended 500000 100 (by norm_num) "2330.TW"
    ⟨2000, 2, 1000000⟩ ⟨true, 1000, 1, 0, 10, -5, 500000, 10000000, 100⟩ false
    (some 100) true ⟨"2330.TW", "BUY", 5000, "MARKET", 100, 500000⟩
  have hev : evaluate_single_buy_signal "2330.TW" ⟨2000, 2, 1000000⟩
      ⟨true, 1000, 1, 0, 10, -5, 500000, 10000000, 100⟩ false (some 100) true
      = some ⟨"2330.TW", "BUY", 5000, "MARKET", 100, 500000⟩ := by
    norm_num [evaluate_single_buy_signal, check_signal_criteria,
      calculate_order_quantity, pyInt]
  refine ⟨by rw [h.1]; norm_num, (h.2.2 hev).1, (h.2.2 hev).2⟩

/-- C6: an accepted duplicate-signal check records the acceptance time
under the stock+day key; a second check for the same stock, on the same
calendar day, strictly inside the 60-minute window is denied and does
not touch the recorded state; a third check at or past the window's end
is accepted again. -/
theorem duplicate_signal_cooldown_window (rs : List ((String × ℕ) × ℕ))
    (stock_code : String) (t1 t2 t3 : ℕ)
    (h1 : (check_duplicate_signal rs stock_code t1 60).1 = true)
    (hd2 : dayOf t2 = dayOf t1) (hw2 : t2 - t1 < 60 * 60)
    (hd3 : dayOf t3 = dayOf t1) (hw3 : 60 * 60 ≤ t3 - t1) :
    check_duplicate_signal (check_duplicate_signal rs stock_code t1 60).2 stock_code t2 60
      = (false, (check_duplicate_signal rs stock_code t1 60).2)
    ∧ (check_duplicate_signal
        (check_duplicate_signal rs stock_code t1 60).2 stock_code t3 60).1 = true := by
  have hrec : (check_duplicate_signal rs stock_code t1 60).2
      = ((stock_code, dayOf t1), t1) :: rs := by
    unfold check_duplicate_signal at h1 ⊢
    cases hl : sigLookup (stock_code, dayOf t1) rs with
    | none => simp [hl]
    | some last =>
      simp only [hl] at h1 ⊢
      by_cases hlt : t1 - last < 60 * 60
      · simp [hlt] at h1
      · simp [hlt]
  constructor
  · rw [hrec]
    unfold check_duplicate_signal
    simp [sigLookup, hd2, hw2]
  · rw [hrec]
    unfold check_duplicate_signal
    simp [sigLookup, hd3, not_lt.mpr hw3]

/-- Witness for C6: acceptance at second 1000, denial at second 2000
(within the hour), acceptance again at second 4600 (an hour later). -/
theorem duplicate_signal_cooldown_window_witness :
    check_duplicate_signal (check_duplicate_signal [] "2330.TW" 1000 60).2 "2330.TW" 2000 60
      = (false, (check_duplicate_signal [] "2330.TW" 1000 60).2)
    ∧ (check_duplicate_signal
        (check_duplicate_signal [] "2330.TW" 1000 60).2 "2330.TW" 4600 60).1 = true :=
  duplicate_signal_cooldown_window [] "2330.TW" 1000 2000 4600
    (by decide) (by decide) (by decide) (by decide) (by decide)

/-- C9 (counterexample): selling the full 1000-share position with id 1
leaves the stored quantity at 1000 — `_update_position_after_sell` only
clears `is_active` and never subtracts the sold amount, so the claimed
decrement to `1000 - 1000 = 0` does not happen. -/
theorem update_position_after_sell_counterexample :
    update_position_after_sell (some 1) [⟨1, "2330.TW", 1000, 100, true⟩]
      = [⟨1, "2330.TW", 1000, 100, false⟩]
    ∧ (update_position_after_sell (some 1) [⟨1, "2330.TW", 1000, 100, true⟩]).map
        Position.quantity ≠ [1000 - 1000] := by
  constructor <;> decide

/-- C9 (amended): the sell-side ledger write marks the row with the
given id inactive and leaves every row's quantity and average cost
exactly as they were (so the quantity is never made negative and the
cost basis is never recomputed); a missing id is a no-op. -/
theorem update_position_after_sell_amended (pid : ℕ) (positions : List Position)
    (hpid : pid ≠ 0) :
    update_position_after_sell (some pid) positions
      = positions.map (fun p => if p.id = pid then { p with is_active := false } else p)
    ∧ (update_position_after_sell (some pid) positions).map Position.quantity
      = positions.map Position.quantity
    ∧ (update_position_after_sell (some pid) positions).map Position.avg_cost
      = positions.map Position.avg_cost
    ∧ update_position_after_sell none positions = positions := by
  have heq : update_position_after_sell (some pid) positions
      = positions.map (fun p => if p.id = pid then { p with is_active := false } else p) := by
    simp [update_position_after_sell, hpid]
  refine ⟨heq, ?_, ?_, rfl⟩ <;>
    · rw [heq, List.map_map]
      refine List.map_congr_left fun p _ => ?_
      by_cases h : p.id = pid <;> simp [h]

/-- Witness for C9 (amended): closing the 3000-share position with id 2
flips `is_active` and preserves the stored quantity. -/
theorem update_position_after_sell_amended_witness :
    update_position_after_sell (some 2) [⟨2, "1301.TW", 3000, 60, true⟩]
      = [⟨2, "1301.TW", 3000, 60, false⟩]
    ∧ (update_position_after_sell (some 2) [⟨2, "1301.TW", 3000, 60, true⟩]).map
        Position.quantity = [3000] := by
  have h := update_position_after_sell_amended 2 [⟨2, "1301.TW", 3000, 60, true⟩] (by decide)
  exact ⟨by rw [h.1]; decide, by rw [h.2.1]; decide⟩

/-- C10: a `MARKET` order — the exact order type every decision emitted
by the buy path carries — matches neither the `BUY`/`MARKET_BUY` nor the
`SELL`/`MARKET_SELL` branch of `MockBrokerAdapter.place_order`: it
always succeeds as FILLED at the current mock price (100 for unknown
stocks), never returns the insufficient-funds error, and leaves the mock
balance and mock positions untouched (only the order log and counter
advance). -/
theorem mock_place_order_market_no_effect (st : MockState) (stock_code : String)
    (quantity : ℤ) (price : Option ℚ) (sc : String) (s : Signal)
    (params : TradingParameters) (held : Bool) (price_info : Option ℚ)
    (risk_passed : Bool) (d : BuyDecision) :
    (mock_place_order st stock_code "MARKET" quantity price).1.success = true
    ∧ (mock_place_order st stock_code "MARKET" quantity price).1.status = some "FILLED"
    ∧ (mock_place_order st stock_code "MARKET" quantity price).1.error = none
    ∧ (mock_place_order st stock_code "MARKET" quantity price).1.execution_price
      = some ((alistLookup stock_code st.mock_prices).getD 100)
    ∧ (mock_place_order st stock_code "MARKET" quantity price).2.mock_balance
      = st.mock_balance
    ∧ (mock_place_order st stock_code "MARKET" quantity price).2.mock_positions
      = st.mock_positions
    ∧ (evaluate_single_buy_signal sc s params held price_info risk_passed = some d →
        d.order_type = "MARKET") := by
  have hu : pyUpper "MARKET" = "MARKET" := by decide
  have hb : ¬ (("MARKET" : String) = "BUY" ∨ ("MARKET" : String) = "MARKET_BUY") := by decide
  have hs : ¬ (("MARKET" : String) = "SELL" ∨ ("MARKET" : String) = "MARKET_SELL") := by
    decide
  have hev : evaluate_single_buy_signal sc s params held price_info risk_passed = some d →
      d.order_type = "MARKET" := by
    intro h
    obtain ⟨cp, -, hd, -⟩ := evaluate_single_buy_signal_some h
    subst hd; rfl
  refine ⟨?_, ?_, ?_, ?_, ?_, ?_, hev⟩ <;> simp [mock_place_order, hu, hb, hs]

/-- Witness for C10: a concrete MARKET order against the initial mock
state, together with a concretely emitted buy decision whose order type
is MARKET. -/
theorem mock_place_order_market_no_effect_witness :
    (mock_place_order ⟨1000000, [], [], 1, [("2330.TW", 500)]⟩ "2330.TW" "MARKET"
        5000 none).1.success = true
    ∧ (mock_place_order ⟨1000000, [], [], 1, [("2330.TW", 500)]⟩ "2330.TW" "MARKET"
        5000 none).2.mock_balance = 1000000
    ∧ BuyDecision.order_type ⟨"2330.TW", "BUY", 5000, "MARKET", 100, 500000⟩
      = "MARKET" := by
  have h := mock_place_order_market_no_effect ⟨1000000, [], [], 1, [("2330.TW", 500)]⟩
    "2330.TW" 5000 none "2330.TW" ⟨2000, 2, 1000000⟩
    ⟨true, 1000, 1, 0, 10, -5, 500000, 10000000, 100⟩ false (some 100) true
    ⟨"2330.TW", "BUY", 5000, "MARKET", 100, 500000⟩
  exact ⟨h.1, h.2.2.2.2.1, h.2.2.2.2.2.2 (by
    norm_num [evaluate_single_buy_signal, check_signal_criteria,
      calculate_order_quantity, pyInt])⟩

/-- A concrete candidate parameter dict in which every checked field is
present and within range. -/
def validParamsDict : ParamsDict :=
  ⟨some (.vdec 10), some (.vdec (-5)), some (.vint 1000), some (.vdec 1),
   some (.vdec 100000), some (.vdec 1000000), some (.vint 10)⟩

/-- Appending under a guard is appending the guarded singleton. -/
lemma ite_append_singleton (c : Prop) [Decidable c] (errors : List String) (msg : String) :
    (if c then errors ++ [msg] else errors) = errors ++ (if c then [msg] else []) := by
  split_ifs <;> simp

/-- The if/elif accumulation of the per-order-value field. -/
lemma ite_append_elif (c1 c2 : Prop) [Decidable c1] [Decidable c2]
    (errors : List String) (m1 m2 : String) :
    (if c1 then errors ++ [m1] else if c2 then errors ++ [m2] else errors)
    = errors ++ (if c1 then [m1] else if c2 then [m2] else []) := by
  split_ifs <;> simp

/-- `filterMap id` peels one optional head. -/
lemma filterMap_id_cons (o : Option String) (l : List (Option String)) :
    (o :: l).filterMap id = o.toList ++ l.filterMap id := by
  cases o <;> simp

/-- A guarded `some` flattens to the guarded singleton. -/
lemma ite_some_toList (c : Prop) [Decidable c] (msg : String) :
    (if c then some msg else none).toList = if c then [msg] else [] := by
  split_ifs <;> simp

/-- An if/elif-guarded `some` flattens to the if/elif-guarded singleton. -/
lemma ite_some_elif_toList (c1 c2 : Prop) [Decidable c1] [Decidable c2] (m1 m2 : String) :
    (if c1 then some m1 else if c2 then some m2 else none).toList
    = if c1 then [m1] else if c2 then [m2] else [] := by
  split_ifs <;> simp

/-- An `ite` over a shared append prefix factors the prefix out. -/
lemma ite_append_push (c : Prop) [Decidable c] (X t e : List String) :
    (if c then X ++ t else X ++ e) = X ++ (if c then t else e) := by
  split_ifs <;> rfl

/-- An if/elif over a shared append prefix factors the prefix out. -/
lemma ite_elif_append_push (c1 c2 : Prop) [Decidable c1] [Decidable c2]
    (X t1 t2 e : List String) :
    (if c1 then X ++ t1 else if c2 then X ++ t2 else X ++ e)
    = X ++ (if c1 then t1 else if c2 then t2 else e) := by
  split_ifs <;> rfl

/-- `validate_parameters` in closed form: the error list is the in-order
concatenation of the seven per-field verdicts and the flag is its
emptiness test. -/
lemma validate_parameters_spec (p : ParamsDict) :
    validate_parameters p
      = (decide ((([tpErr p, slErr p, vsErr p, vrErr p, povErr p,
            mtpErr p, mdtErr p]).filterMap id).length = 0),
         ([tpErr p, slErr p, vsErr p, vrErr p, povErr p, mtpErr p, mdtErr p]).filterMap id)
    := by
  obtain ⟨f1, f2, f3, f4, f5, f6, f7⟩ := p
  cases f1 <;> cases f2 <;> cases f3 <;> cases f4 <;> cases f5 <;> cases f6 <;> cases f7 <;>
    simp only [validate_parameters, tpErr, slErr, vsErr, vrErr, povErr, mtpErr, mdtErr,
      ite_append_singleton, ite_append_elif, ite_append_push, ite_elif_append_push,
      filterMap_id_cons, ite_some_toList, ite_some_elif_toList, List.filterMap_nil,
      Option.toList_none, Option.toList_some, List.append_assoc, List.nil_append,
      List.append_nil]

/-- C7: `validate_parameters` examines every present field independently
— the error list is exactly the concatenation, in source order, of the
per-field verdicts, so no failure hides a later one — it returns ok
exactly when that list is empty, and each per-field verdict is clean
exactly when the field meets its §3 range (take-profit in (0,100],
stop-loss in [-50,0), volume shares a positive integer, volume ratio
positive, per-order value in (0, 10,000,000], total position positive,
daily trades an integer in [1,1000]). -/
theorem validate_parameters_accumulates_errors (p : ParamsDict) :
    (validate_parameters p).2
      = [tpErr p, slErr p, vsErr p, vrErr p, povErr p, mtpErr p, mdtErr p].filterMap id
    ∧ ((validate_parameters p).1 = true ↔ (validate_parameters p).2 = [])
    ∧ (∀ q : ℚ, p.take_profit_pct = some (.vdec q) →
        (tpErr p = none ↔ 0 < q ∧ q ≤ 100))
    ∧ (∀ q : ℚ, p.stop_loss_pct = some (.vdec q) →
        (slErr p = none ↔ -50 ≤ q ∧ q < 0))
    ∧ (∀ n : ℤ, p.min_volume_shares = some (.vint n) →
        (vsErr p = none ↔ 0 < n))
    ∧ (∀ q : ℚ, p.min_volume_ratio = some (.vdec q) →
        (vrErr p = none ↔ 0 < q))
    ∧ (∀ q : ℚ, p.per_order_value = some (.vdec q) →
        (povErr p = none ↔ 0 < q ∧ q ≤ 10000000))
    ∧ (∀ q : ℚ, p.max_total_position = some (.vdec q) →
        (mtpErr p = none ↔ 0 < q))
    ∧ (∀ n : ℤ, p.max_daily_trades = some (.vint n) →
        (mdtErr p = none ↔ 0 < n ∧ n ≤ 1000)) := by
  refine ⟨?_, ?_, ?_, ?_, ?_, ?_, ?_, ?_, ?_⟩
  · rw [validate_parameters_spec]
  · rw [validate_parameters_spec]
    simp [List.length_eq_zero]
  · intro q hq
    simp only [tpErr, hq, PyVal.isNumber, PyVal.toQ, Bool.not_true, Bool.false_eq_true,
      false_or]
    split_ifs with h
    · simp only [reduceCtorEq, false_iff]
      rintro ⟨h1, h2⟩
      rcases h with h | h
      · exact absurd h1 (not_lt.mpr h)
      · exact absurd h2 (not_le.mpr h)
    · push_neg at h
      simp [h.1, h.2]
  · intro q hq
    simp only [slErr, hq, PyVal.isNumber, PyVal.toQ, Bool.not_true, Bool.false_eq_true,
      false_or]
    split_ifs with h
    · simp only [reduceCtorEq, false_iff]
      rintro ⟨h1, h2⟩
      rcases h with h | h
      · exact absurd h2 (not_lt.mpr h)
      · exact absurd h1 (not_le.mpr h)
    · push_neg at h
      simp [h.1, h.2]
  · intro n hn
    simp only [vsErr, hn, PyVal.isInt, PyVal.toQ, Bool.not_true, Bool.false_eq_true,
      false_or]
    split_ifs with h
    · simp only [reduceCtorEq, false_iff, not_lt]
      exact_mod_cast h
    · simp only [true_iff]
      exact_mod_cast not_le.mp h
  · intro q hq
    simp only [vrErr, hq, PyVal.isNumber, PyVal.toQ, Bool.not_true, Bool.false_eq_true,
      false_or]
    split_ifs with h
    · simp [not_lt.mpr h]
    · simp [not_le.mp h]
  · intro q hq
    simp only [povErr, hq, PyVal.isNumber, PyVal.toQ, Bool.not_true, Bool.false_eq_true,
      false_or]
    split_ifs with h1 h2
    · simp [not_lt.mpr h1]
    · simp only [reduceCtorEq, false_iff]
      rintro ⟨-, hle⟩
      exact absurd hle (not_le.mpr h2)
    · simp [not_le.mp h1, not_lt.mp h2]
  · intro q hq
    simp only [mtpErr, hq, PyVal.isNumber, PyVal.toQ, Bool.not_true, Bool.false_eq_true,
      false_or]
    split_ifs with h
    · simp [not_lt.mpr h]
    · simp [not_le.mp h]
  · intro n hn
    simp only [mdtErr, hn, PyVal.isInt, PyVal.toQ, Bool.not_true, Bool.false_eq_true,
      false_or]
    split_ifs with h
    · simp only [reduceCtorEq, false_iff]
      rintro ⟨h1, h2⟩
      rcases h with h | h
      · exact absurd h1 (by exact_mod_cast not_lt.mpr h)
      · exact absurd h2 (by exact_mod_cast not_le.mpr h)
    · push_neg at h
      constructor
      · intro
        exact ⟨by exact_mod_cast h.1, by exact_mod_cast h.2⟩
      · intro
        rfl

/-- Witness for C7: the in-range candidate dict validates cleanly, and
its take-profit verdict is clean because 10 ∈ (0,100]. -/
theorem validate_parameters_accumulates_errors_witness :
    (validate_parameters validParamsDict).1 = true
    ∧ tpErr validParamsDict = none :=
  ⟨((validate_parameters_accumulates_errors validParamsDict).2.1).mpr
      (by norm_num [validate_parameters_spec, validParamsDict, tpErr, slErr, vsErr,
        vrErr, povErr, mtpErr, mdtErr, PyVal.isNumber, PyVal.isInt, PyVal.toQ]),
   ((validate_parameters_accumulates_errors validParamsDict).2.2.1 10 rfl).mpr
      (by norm_num)⟩

end Auto
